import Mathlib

/-!
Verification of the LinkedIn post generator HTTP API (backend.py).

The program is a Flask application with three POST endpoints
(generate_post, regenerate_post, modify_post) and two GET endpoints.
We embed it shallowly: the Ollama handle `llm` becomes an optional
function from prompts to results (`Except msg output` models a raised
exception versus a returned string), and every handler returns, besides
its HTTP response, the list of prompts actually sent to the backend
handle, so that claims about which backend calls happen are statable.
Python string operations (strip, startswith, join, format substitution)
are embedded as character-list functions.
-/

namespace PostApi

/-- Python str.strip considers these characters whitespace. -/
def pyIsSpace (c : Char) : Bool :=
  c = ' ' || c = '\t' || c = '\n' || c = '\r' || c = '\x0b' || c = '\x0c'

/-- Embedding of Python str.strip: drop whitespace at both ends. -/
def pyStrip (s : String) : String :=
  ⟨((s.data.dropWhile pyIsSpace).reverse.dropWhile pyIsSpace).reverse⟩

/-- Embedding of Python str.startswith. -/
def pyStartsWith (s pat : String) : Bool :=
  pat.data.isPrefixOf s.data

/-- Embedding of Python ", ".join(l), as used in the missing-fields message. -/
def joinComma : List String → String
  | [] => ""
  | [x] => x
  | x :: y :: ys => x ++ ", " ++ joinComma (y :: ys)

/-- The backend handle: `llm` is `none` when OllamaLLM initialization
raised at process start, otherwise a function from the prompt to the
invocation outcome (`Except.error m` models `llm.invoke` raising an
exception whose message is `m`). -/
structure Backend where
  llm : Option (String → Except String String)

/-- One call of `llm.invoke prompt`: the outcome together with the
one-element trace of prompts sent to the backend. A `none` handle
raises without any backend traffic. -/
def Backend.invokeLLM : Backend → String → Except String String × List String
  | ⟨none⟩, _ => (Except.error "NoneType object has no attribute invoke", [])
  | ⟨some f⟩, p => (f p, [p])

/-- The fixed prompt of the availability probe (line 76 of backend.py). -/
def probePrompt : String := "Say hello in one word."

/-- is_ollama_available: false immediately when `llm is None`, otherwise
invoke the probe prompt; success means available, a raised error means
unavailable. Returns the availability flag and the trace of prompts sent. -/
def is_ollama_available (b : Backend) : Bool × List String :=
  match b.llm with
  | none => (false, [])
  | some _ =>
    match b.invokeLLM probePrompt with
    | (Except.ok _, t) => (true, t)
    | (Except.error _, t) => (false, t)

/-- Text of generate_template before the placeholder. -/
def generate_template_head : String :=
  "\nYou are a professional LinkedIn post generator. Create an engaging and professional post based on the following context.\nThe post should follow LinkedIn best practices, include relevant hashtags, and be appropriately formatted.\n\nUSER CONTEXT:\n"

/-- Text of generate_template after the placeholder. -/
def generate_template_tail : String := "\n\nLINKEDIN POST:\n"

/-- The generate template string of backend.py (lines 28-36). -/
def generate_template : String :=
  generate_template_head ++ "{context}" ++ generate_template_tail

/-- PromptTemplate.format on the generate template: substitute context. -/
def format_generate (context : String) : String :=
  generate_template_head ++ context ++ generate_template_tail

/-- Text of regenerate_template before the placeholder. -/
def regenerate_template_head : String :=
  "\nYou are a professional LinkedIn post generator. Create a NEW engaging and professional post based on the following context.\nThis should be completely different from any previous post.\nThe post should follow LinkedIn best practices, include relevant hashtags, and be appropriately formatted.\n\nUSER CONTEXT:\n"

/-- Text of regenerate_template after the placeholder. -/
def regenerate_template_tail : String := "\n\nNEW LINKEDIN POST:\n"

/-- The regenerate template string of backend.py (lines 38-47). -/
def regenerate_template : String :=
  regenerate_template_head ++ "{context}" ++ regenerate_template_tail

/-- PromptTemplate.format on the regenerate template. -/
def format_regenerate (context : String) : String :=
  regenerate_template_head ++ context ++ regenerate_template_tail

/-- Text of reduce_template before the placeholder. -/
def reduce_template_head : String :=
  "\nMake this LinkedIn post more concise while preserving the key message.\nAim for about half the original length.\n\nORIGINAL POST:\n"

/-- Text of reduce_template after the placeholder. -/
def reduce_template_tail : String := "\n\nSHORTER LINKEDIN POST:\n"

/-- The reduce template string of backend.py (lines 49-57). -/
def reduce_template : String :=
  reduce_template_head ++ "{post}" ++ reduce_template_tail

/-- PromptTemplate.format on the reduce template: substitute the post. -/
def format_reduce (post : String) : String :=
  reduce_template_head ++ post ++ reduce_template_tail

/-- Text of elaborate_template before the placeholder. -/
def elaborate_template_head : String :=
  "\nExpand this LinkedIn post with more details, examples, or insights.\nMake it more compelling and detailed while maintaining professionalism.\n\nORIGINAL POST:\n"

/-- Text of elaborate_template after the placeholder. -/
def elaborate_template_tail : String := "\n\nEXPANDED LINKEDIN POST:\n"

/-- The elaborate template string of backend.py (lines 59-67). -/
def elaborate_template : String :=
  elaborate_template_head ++ "{post}" ++ elaborate_template_tail

/-- PromptTemplate.format on the elaborate template. -/
def format_elaborate (post : String) : String :=
  elaborate_template_head ++ post ++ elaborate_template_tail

/-- generate_linkedin_post: format the generate template and invoke the
backend; a raised error is converted to a textual response beginning
with "Error". Returns the text and the trace of prompts sent. -/
def generate_linkedin_post (b : Backend) (context : String) : String × List String :=
  match b.invokeLLM (format_generate context) with
  | (Except.ok t, tr) => (t, tr)
  | (Except.error e, tr) => ("Error generating LinkedIn post: " ++ e, tr)

/-- regenerate_linkedin_post: same shape with the regenerate template. -/
def regenerate_linkedin_post (b : Backend) (context : String) : String × List String :=
  match b.invokeLLM (format_regenerate context) with
  | (Except.ok t, tr) => (t, tr)
  | (Except.error e, tr) => ("Error regenerating LinkedIn post: " ++ e, tr)

/-- modify_linkedin_post: select the reduce or elaborate template by the
action, substitute the post, invoke the backend; any other action yields
the "Invalid action" text without any backend call. -/
def modify_linkedin_post (b : Backend) (post action : String) : String × List String :=
  if action = "reduce" then
    match b.invokeLLM (format_reduce post) with
    | (Except.ok t, tr) => (t, tr)
    | (Except.error e, tr) => ("Error modifying LinkedIn post: " ++ e, tr)
  else if action = "elaborate" then
    match b.invokeLLM (format_elaborate post) with
    | (Except.ok t, tr) => (t, tr)
    | (Except.error e, tr) => ("Error modifying LinkedIn post: " ++ e, tr)
  else
    ("Invalid action: " ++ action, [])

/-- An inbound POST body: either not JSON, or a JSON object whose string
fields are an association list. -/
inductive ReqBody where
  | notJson : ReqBody
  | json : List (String × String) → ReqBody

/-- Python `name in data` on the request dict. -/
def hasField (data : List (String × String)) (k : String) : Bool :=
  data.any (fun q => q.1 = k)

/-- Python `data[name]` on the request dict (the handlers only read
fields whose presence they have checked). -/
def getField (data : List (String × String)) (k : String) : String :=
  match data.find? (fun q => q.1 = k) with
  | some q => q.2
  | none => ""

/-- An HTTP response: status code and JSON object body. -/
structure HttpResponse where
  status : Nat
  body : List (String × String)
deriving DecidableEq

/-- The /health handler: constant ok, no backend traffic. -/
def health_check : HttpResponse := ⟨200, [("status", "ok")]⟩

/-- The /generate_post handler (backend.py lines 148-167). Returns the
response and the trace of all prompts sent to the backend handle. -/
def generate_post (b : Backend) (req : ReqBody) : HttpResponse × List String :=
  match req with
  | .notJson => (⟨400, [("error", "Request must be JSON")]⟩, [])
  | .json data =>
    if hasField data "context" = false then
      (⟨400, [("error", "Missing \x27context\x27 field")]⟩, [])
    else if (is_ollama_available b).1 = false then
      (⟨500, [("error", "Ollama service is not available")]⟩, (is_ollama_available b).2)
    else
      if pyStartsWith (generate_linkedin_post b (getField data "context")).1 "Error" then
        (⟨500, [("error", (generate_linkedin_post b (getField data "context")).1)]⟩,
          (is_ollama_available b).2 ++ (generate_linkedin_post b (getField data "context")).2)
      else
        (⟨200, [("post", pyStrip (generate_linkedin_post b (getField data "context")).1)]⟩,
          (is_ollama_available b).2 ++ (generate_linkedin_post b (getField data "context")).2)

/-- The /regenerate_post handler (backend.py lines 169-188). -/
def regenerate_post (b : Backend) (req : ReqBody) : HttpResponse × List String :=
  match req with
  | .notJson => (⟨400, [("error", "Request must be JSON")]⟩, [])
  | .json data =>
    if hasField data "context" = false then
      (⟨400, [("error", "Missing \x27context\x27 field")]⟩, [])
    else if (is_ollama_available b).1 = false then
      (⟨500, [("error", "Ollama service is not available")]⟩, (is_ollama_available b).2)
    else
      if pyStartsWith (regenerate_linkedin_post b (getField data "context")).1 "Error" then
        (⟨500, [("error", (regenerate_linkedin_post b (getField data "context")).1)]⟩,
          (is_ollama_available b).2 ++ (regenerate_linkedin_post b (getField data "context")).2)
      else
        (⟨200, [("post", pyStrip (regenerate_linkedin_post b (getField data "context")).1)]⟩,
          (is_ollama_available b).2 ++ (regenerate_linkedin_post b (getField data "context")).2)

/-- Required fields of /modify_post (backend.py line 197). -/
def required_fields : List String := ["context", "current_post", "action"]

/-- The missing-fields list computed by /modify_post. -/
def missing_fields (data : List (String × String)) : List String :=
  required_fields.filter (fun fld => hasField data fld = false)

/-- The /modify_post handler (backend.py lines 190-216). Note the order
of checks in the source: missing fields, then the availability probe,
then the action validity check, then the generation call. -/
def modify_post (b : Backend) (req : ReqBody) : HttpResponse × List String :=
  match req with
  | .notJson => (⟨400, [("error", "Request must be JSON")]⟩, [])
  | .json data =>
    if missing_fields data ≠ [] then
      (⟨400, [("error", "Missing fields: " ++ joinComma (missing_fields data))]⟩, [])
    else if (is_ollama_available b).1 = false then
      (⟨500, [("error", "Ollama service is not available")]⟩, (is_ollama_available b).2)
    else if (["reduce", "elaborate"].contains (getField data "action")) = false then
      (⟨400, [("error", "Invalid action. Use \x27reduce\x27 or \x27elaborate\x27.")]⟩,
        (is_ollama_available b).2)
    else
      if pyStartsWith (modify_linkedin_post b (getField data "current_post") (getField data "action")).1 "Error" then
        (⟨500, [("error", (modify_linkedin_post b (getField data "current_post") (getField data "action")).1)]⟩,
          (is_ollama_available b).2 ++ (modify_linkedin_post b (getField data "current_post") (getField data "action")).2)
      else
        (⟨200, [("post", pyStrip (modify_linkedin_post b (getField data "current_post") (getField data "action")).1)]⟩,
          (is_ollama_available b).2 ++ (modify_linkedin_post b (getField data "current_post") (getField data "action")).2)

/-- A generate or regenerate request body with the given context. -/
def mkGenReq (context : String) : ReqBody := .json [("context", context)]

/-- A modify request body with all three required fields. -/
def mkModifyReq (context current_post action : String) : ReqBody :=
  .json [("context", context), ("current_post", current_post), ("action", action)]

/-- A backend whose handle answers every prompt with a fixed text. -/
def constBackend (t : String) : Backend := ⟨some (fun _ => Except.ok t)⟩

/-- A backend whose handle echoes the prompt back as the generated text. -/
def echoBackend : Backend := ⟨some (fun p => Except.ok p)⟩

/-- A backend whose handle failed to initialize (`llm is None`). -/
def noneBackend : Backend := ⟨none⟩

end PostApi

namespace PostApi

/-- C7: a non-JSON body to any of the three POST endpoints yields
HTTP 400 with the "Request must be JSON" error and an empty backend
trace: neither the probe nor a generation call happens. -/
theorem C7_non_json_rejected_without_backend (b : Backend) :
    generate_post b ReqBody.notJson
        = (⟨400, [("error", "Request must be JSON")]⟩, [])
      ∧ regenerate_post b ReqBody.notJson
        = (⟨400, [("error", "Request must be JSON")]⟩, [])
      ∧ modify_post b ReqBody.notJson
        = (⟨400, [("error", "Request must be JSON")]⟩, []) :=
  ⟨rfl, rfl, rfl⟩

/-- C5: there is a backend run raising no error whose generated text
nevertheless produces HTTP 500: the handler classifies success by a
string prefix test, so a legitimate output beginning with "Error" is
treated as a failure. -/
theorem C5_error_prefix_misclassified :
    (∀ p : String, ∃ t : String,
        (constBackend "Error test").invokeLLM p = (Except.ok t, [p]))
      ∧ (generate_post (constBackend "Error test") (mkGenReq "x")).1
          = ⟨500, [("error", "Error test")]⟩ :=
  ⟨fun p => ⟨"Error test", rfl⟩, by decide⟩

/-- C10: when the handle failed to initialize (`llm is None`), the
availability probe reports unavailable without any backend call, and
every otherwise-valid generation-type request gets HTTP 500
backend-unavailable with an empty backend trace. -/
theorem C10_none_handle_means_unavailable :
    is_ollama_available noneBackend = (false, [])
      ∧ (∀ context : String, generate_post noneBackend (mkGenReq context)
          = (⟨500, [("error", "Ollama service is not available")]⟩, []))
      ∧ (∀ context : String, regenerate_post noneBackend (mkGenReq context)
          = (⟨500, [("error", "Ollama service is not available")]⟩, []))
      ∧ (∀ context current_post action : String,
          modify_post noneBackend (mkModifyReq context current_post action)
          = (⟨500, [("error", "Ollama service is not available")]⟩, [])) :=
  ⟨rfl, fun _ => rfl, fun _ => rfl, fun _ _ _ => rfl⟩

/-- The probe trace is empty or the single probe prompt. -/
theorem probe_trace_cases (b : Backend) :
    (is_ollama_available b).2 = [] ∨ (is_ollama_available b).2 = [probePrompt] := by
  obtain ⟨llm⟩ := b
  cases llm with
  | none => exact Or.inl rfl
  | some f =>
    cases hf : f probePrompt with
    | ok t => exact Or.inr (by simp [is_ollama_available, Backend.invokeLLM, hf])
    | error e => exact Or.inr (by simp [is_ollama_available, Backend.invokeLLM, hf])

/-- C3: whenever the availability probe reports unavailable, every
valid generation-type request gets HTTP 500 and the backend trace is
exactly the probe trace, whose only possible element is the fixed probe
prompt: no generation-template prompt is ever sent. -/
theorem C3_unavailable_means_500_no_generation (b : Backend)
    (h : (is_ollama_available b).1 = false) :
    (∀ context : String, generate_post b (mkGenReq context)
        = (⟨500, [("error", "Ollama service is not available")]⟩, (is_ollama_available b).2))
      ∧ (∀ context : String, regenerate_post b (mkGenReq context)
        = (⟨500, [("error", "Ollama service is not available")]⟩, (is_ollama_available b).2))
      ∧ (∀ context current_post action : String,
          modify_post b (mkModifyReq context current_post action)
        = (⟨500, [("error", "Ollama service is not available")]⟩, (is_ollama_available b).2))
      ∧ (∀ p ∈ (is_ollama_available b).2, p = probePrompt) := by
  refine ⟨fun context => ?_, fun context => ?_, fun context current_post action => ?_, ?_⟩
  · simp [generate_post, mkGenReq, hasField, h]
  · simp [regenerate_post, mkGenReq, hasField, h]
  · simp [modify_post, mkModifyReq, missing_fields, required_fields, hasField, h]
  · rcases probe_trace_cases b with h2 | h2 <;> simp [h2]

/-- C3 witness: a backend with an uninitialized handle at a concrete
generate_post request. -/
theorem C3_unavailable_means_500_no_generation_witness :
    generate_post noneBackend (mkGenReq "hello")
      = (⟨500, [("error", "Ollama service is not available")]⟩,
         (is_ollama_available noneBackend).2) :=
  (C3_unavailable_means_500_no_generation noneBackend rfl).1 "hello"

/-- C2: two valid modify_post requests that differ only in the context
field produce, against the same backend, identical results: the same
HTTP response and the same trace of prompts sent, since the substituted
template depends only on current_post and action. -/
theorem C2_context_never_used (b : Backend) (c1 c2 current_post action : String) :
    modify_post b (mkModifyReq c1 current_post action)
      = modify_post b (mkModifyReq c2 current_post action) := rfl

/-- A string keeps its startswith witness when text is appended. -/
theorem pyStartsWith_append (s t pat : String) (h : pyStartsWith s pat = true) :
    pyStartsWith (s ++ t) pat = true := by
  unfold pyStartsWith at h ⊢
  rw [String.data_append]
  exact List.isPrefixOf_iff_prefix.mpr
    ((List.isPrefixOf_iff_prefix.mp h).trans (List.prefix_append _ _))

/-- Every member of a list occurs literally inside its comma join. -/
theorem joinComma_names_member (l : List String) (s : String) (h : s ∈ l) :
    ∃ x y : String, joinComma l = x ++ s ++ y := by
  induction l with
  | nil => cases h
  | cons a t ih =>
    cases t with
    | nil =>
      rcases List.mem_cons.mp h with h1 | h1
      · exact ⟨"", "", by simp [joinComma, h1]⟩
      · cases h1
    | cons c u =>
      rcases List.mem_cons.mp h with h1 | h1
      · subst h1
        exact ⟨"", ", " ++ joinComma (c :: u), by
          simp [joinComma, String.append_assoc]⟩
      · obtain ⟨x, y, hxy⟩ := ih h1
        exact ⟨a ++ ", " ++ x, y, by
          simp [joinComma, hxy, String.append_assoc]⟩

/-- C6: a JSON body with required fields missing yields HTTP 400 with
an error message that names every missing field, and an empty backend
trace; for generate_post and regenerate_post the single required field
is context and its absence is likewise reported before any backend
call. -/
theorem C6_missing_fields_reported (b : Backend) (data : List (String × String)) :
    (missing_fields data ≠ [] →
        modify_post b (ReqBody.json data)
          = (⟨400, [("error", "Missing fields: " ++ joinComma (missing_fields data))]⟩, [])
        ∧ ∀ fld ∈ missing_fields data, ∃ x y : String,
            "Missing fields: " ++ joinComma (missing_fields data) = x ++ fld ++ y)
      ∧ (hasField data "context" = false →
        generate_post b (ReqBody.json data)
            = (⟨400, [("error", "Missing \x27context\x27 field")]⟩, [])
          ∧ regenerate_post b (ReqBody.json data)
            = (⟨400, [("error", "Missing \x27context\x27 field")]⟩, [])) := by
  constructor
  · intro h
    refine ⟨by simp [modify_post, h], fun fld hf => ?_⟩
    obtain ⟨x, y, hxy⟩ := joinComma_names_member _ fld hf
    exact ⟨"Missing fields: " ++ x, y, by rw [hxy, String.append_assoc, String.append_assoc,
      String.append_assoc]⟩
  · intro h
    exact ⟨by simp [generate_post, h], by simp [regenerate_post, h]⟩

/-- C6 witness: a modify_post body holding only context, and an empty
generate_post body, at a concrete backend. -/
theorem C6_missing_fields_reported_witness :
    (modify_post echoBackend (ReqBody.json [("context", "c")])
        = (⟨400, [("error", "Missing fields: " ++ joinComma (missing_fields [("context", "c")]))]⟩, []))
      ∧ generate_post echoBackend (ReqBody.json [])
        = (⟨400, [("error", "Missing \x27context\x27 field")]⟩, []) :=
  ⟨((C6_missing_fields_reported echoBackend [("context", "c")]).1 (by decide)).1,
   ((C6_missing_fields_reported echoBackend []).2 (by decide)).1⟩

/-- A backend whose handle succeeds on every prompt with a greeting. -/
def okBackend : Backend := constBackend "Hello!"

/-- C1 counterexample: a modify_post request with action "delete" and an
available backend gets HTTP 400, yet the backend trace is nonempty: the
availability probe was invoked before the 400 response, contradicting
the claim that no backend call (including the probe) precedes it. -/
theorem C1_counterexample :
    (modify_post okBackend (mkModifyReq "c" "p" "delete")).1.status = 400
      ∧ (modify_post okBackend (mkModifyReq "c" "p" "delete")).2 = [probePrompt] := by
  decide

/-- C1 amended: on a modify_post request with all fields present and an
action outside reduce and elaborate, the probe runs first: if it reports
unavailable the handler returns HTTP 500, and otherwise HTTP 400 for the
invalid action with the probe call as the only backend call made before
the response; in neither case is a generation-template call made. -/
theorem C1_invalid_action_after_probe (b : Backend)
    (context current_post action : String)
    (h : (["reduce", "elaborate"].contains action) = false) :
    ((is_ollama_available b).1 = false →
        modify_post b (mkModifyReq context current_post action)
          = (⟨500, [("error", "Ollama service is not available")]⟩, (is_ollama_available b).2))
      ∧ ((is_ollama_available b).1 = true →
        modify_post b (mkModifyReq context current_post action)
          = (⟨400, [("error", "Invalid action. Use \x27reduce\x27 or \x27elaborate\x27.")]⟩,
             [probePrompt])) := by
  constructor
  · intro hav
    simp [modify_post, mkModifyReq, missing_fields, required_fields, hasField, hav]
  · intro hav
    have htr : (is_ollama_available b).2 = [probePrompt] := by
      obtain ⟨llm⟩ := b
      cases llm with
      | none => simp [is_ollama_available] at hav
      | some f =>
        cases hf : f probePrompt with
        | ok t => simp [is_ollama_available, Backend.invokeLLM, hf]
        | error e => simp [is_ollama_available, Backend.invokeLLM, hf] at hav
    have h1 : action ≠ "reduce" := by
      intro he; subst he; exact absurd h (by decide)
    have h2 : action ≠ "elaborate" := by
      intro he; subst he; exact absurd h (by decide)
    simp [modify_post, mkModifyReq, missing_fields, required_fields, hasField,
      getField, hav, htr, h1, h2]

/-- C1 amended witness: the concrete invalid-action request against the
available backend. -/
theorem C1_invalid_action_after_probe_witness :
    modify_post okBackend (mkModifyReq "c" "p" "delete")
      = (⟨400, [("error", "Invalid action. Use \x27reduce\x27 or \x27elaborate\x27.")]⟩,
         [probePrompt]) :=
  (C1_invalid_action_after_probe okBackend "c" "p" "delete" (by decide)).2 (by decide)

/-- A handle that answers the probe and raises "boom" on everything
else, modelling a backend that fails during actual generation. -/
def raisingFun : String → Except String String :=
  fun p => if p = probePrompt then Except.ok "Hello" else Except.error "boom"

/-- C4: when the probe succeeds but the generation call raises with
message m, every generation-type endpoint returns HTTP 500 whose error
field text contains m (it is the fixed endpoint text followed by m). -/
theorem C4_generation_exception_500 (f : String → Except String String)
    (w context current_post m : String)
    (hp : f probePrompt = Except.ok w)
    (hg : f (format_generate context) = Except.error m)
    (hr : f (format_regenerate context) = Except.error m)
    (hred : f (format_reduce current_post) = Except.error m)
    (hel : f (format_elaborate current_post) = Except.error m) :
    (generate_post ⟨some f⟩ (mkGenReq context)
        = (⟨500, [("error", "Error generating LinkedIn post: " ++ m)]⟩,
           [probePrompt, format_generate context])
      ∧ ∃ x : String, "Error generating LinkedIn post: " ++ m = x ++ m)
    ∧ (regenerate_post ⟨some f⟩ (mkGenReq context)
        = (⟨500, [("error", "Error regenerating LinkedIn post: " ++ m)]⟩,
           [probePrompt, format_regenerate context])
      ∧ ∃ x : String, "Error regenerating LinkedIn post: " ++ m = x ++ m)
    ∧ (modify_post ⟨some f⟩ (mkModifyReq context current_post "reduce")
        = (⟨500, [("error", "Error modifying LinkedIn post: " ++ m)]⟩,
           [probePrompt, format_reduce current_post])
      ∧ modify_post ⟨some f⟩ (mkModifyReq context current_post "elaborate")
        = (⟨500, [("error", "Error modifying LinkedIn post: " ++ m)]⟩,
           [probePrompt, format_elaborate current_post])
      ∧ ∃ x : String, "Error modifying LinkedIn post: " ++ m = x ++ m) := by
  have hswg := pyStartsWith_append "Error generating LinkedIn post: " m "Error" (by decide)
  have hswr := pyStartsWith_append "Error regenerating LinkedIn post: " m "Error" (by decide)
  have hswm := pyStartsWith_append "Error modifying LinkedIn post: " m "Error" (by decide)
  refine ⟨⟨?_, "Error generating LinkedIn post: ", rfl⟩,
         ⟨?_, "Error regenerating LinkedIn post: ", rfl⟩,
         ?_, ?_, "Error modifying LinkedIn post: ", rfl⟩
  · simp [generate_post, mkGenReq, hasField, getField, is_ollama_available,
      Backend.invokeLLM, hp, generate_linkedin_post, hg, hswg]
  · simp [regenerate_post, mkGenReq, hasField, getField, is_ollama_available,
      Backend.invokeLLM, hp, regenerate_linkedin_post, hr, hswr]
  · simp [modify_post, mkModifyReq, missing_fields, required_fields, hasField, getField,
      is_ollama_available, Backend.invokeLLM, hp, modify_linkedin_post, hred, hswm]
  · simp [modify_post, mkModifyReq, missing_fields, required_fields, hasField, getField,
      is_ollama_available, Backend.invokeLLM, hp, modify_linkedin_post, hel, hswm]

/-- C4 witness: the raising handle at concrete requests. -/
theorem C4_generation_exception_500_witness :
    generate_post ⟨some raisingFun⟩ (mkGenReq "c")
      = (⟨500, [("error", "Error generating LinkedIn post: " ++ "boom")]⟩,
         [probePrompt, format_generate "c"]) :=
  ((C4_generation_exception_500 raisingFun "Hello" "c" "p" "boom"
    rfl rfl rfl rfl rfl).1).1

/-- C8: on a successful generation (probe ok, backend returns s, s does
not begin with "Error"), every generation-type endpoint answers HTTP 200
whose post field is s with leading and trailing whitespace stripped. -/
theorem C8_success_strips_whitespace (f : String → Except String String)
    (w context current_post s : String)
    (hp : f probePrompt = Except.ok w)
    (hsw : pyStartsWith s "Error" = false)
    (hg : f (format_generate context) = Except.ok s)
    (hr : f (format_regenerate context) = Except.ok s)
    (hred : f (format_reduce current_post) = Except.ok s)
    (hel : f (format_elaborate current_post) = Except.ok s) :
    generate_post ⟨some f⟩ (mkGenReq context)
        = (⟨200, [("post", pyStrip s)]⟩, [probePrompt, format_generate context])
      ∧ regenerate_post ⟨some f⟩ (mkGenReq context)
        = (⟨200, [("post", pyStrip s)]⟩, [probePrompt, format_regenerate context])
      ∧ modify_post ⟨some f⟩ (mkModifyReq context current_post "reduce")
        = (⟨200, [("post", pyStrip s)]⟩, [probePrompt, format_reduce current_post])
      ∧ modify_post ⟨some f⟩ (mkModifyReq context current_post "elaborate")
        = (⟨200, [("post", pyStrip s)]⟩, [probePrompt, format_elaborate current_post]) := by
  refine ⟨?_, ?_, ?_, ?_⟩
  · simp [generate_post, mkGenReq, hasField, getField, is_ollama_available,
      Backend.invokeLLM, hp, generate_linkedin_post, hg, hsw]
  · simp [regenerate_post, mkGenReq, hasField, getField, is_ollama_available,
      Backend.invokeLLM, hp, regenerate_linkedin_post, hr, hsw]
  · simp [modify_post, mkModifyReq, missing_fields, required_fields, hasField, getField,
      is_ollama_available, Backend.invokeLLM, hp, modify_linkedin_post, hred, hsw]
  · simp [modify_post, mkModifyReq, missing_fields, required_fields, hasField, getField,
      is_ollama_available, Backend.invokeLLM, hp, modify_linkedin_post, hel, hsw]

/-- A handle answering the probe with a greeting and every generation
prompt with a whitespace-padded text. -/
def stripFun : String → Except String String :=
  fun p => if p = probePrompt then Except.ok "Hello" else Except.ok "  Hi there  "

set_option maxRecDepth 10000 in
/-- C8 witness: the backend output with surrounding spaces yields the
stripped post, matching the example of the spec. -/
theorem C8_success_strips_whitespace_witness :
    generate_post ⟨some stripFun⟩ (mkGenReq "c")
      = (⟨200, [("post", "Hi there")]⟩, [probePrompt, format_generate "c"]) :=
  ((C8_success_strips_whitespace stripFun "Hello" "c" "p" "  Hi there  "
    rfl (by decide) rfl rfl rfl rfl).1).trans (by decide)

/-- The trimmed echoed prompt text before the substituted context. -/
def echoedHead : String :=
  "You are a professional LinkedIn post generator. Create an engaging and professional post based on the following context.\nThe post should follow LinkedIn best practices, include relevant hashtags, and be appropriately formatted.\n\nUSER CONTEXT:\n"

set_option maxRecDepth 40000 in
/-- C9: against the echoing backend, generate_post with context "hello"
answers HTTP 200 and the post field contains the literal substituted
string "hello", surrounded by the template text. -/
theorem C9_echo_contains_context :
    (generate_post echoBackend (mkGenReq "hello")).1.status = 200
      ∧ ∃ x y : String,
          (generate_post echoBackend (mkGenReq "hello")).1.body
            = [("post", x ++ "hello" ++ y)] :=
  ⟨by decide, echoedHead, "\n\nLINKEDIN POST:", by decide⟩

end PostApi
